import Mathlib

/-
Verification of the live-tracking dashboard (static/js/enhanced_tracking.js).

The development shallowly embeds the parts of the code the claims are
about:
* the UltraAccuracy acquisition loop of
  LocationTracker.getCurrentLocationUltraAccuracy, driven by a script of
  geolocation callback outcomes (one entry per getCurrentPosition call);
* the LocationTracker lifecycle methods startTracking, stopTracking and
  onLocationError, with network effects (fetch results) passed in as
  explicit outcomes and user-visible toasts collected as messages;
* the alert bookkeeping of EnhancedTrackingFeatures.checkForAlerts
  (hasAlert / addAlert / removeAlert over the alerts list);
* the trail bookkeeping of EnhancedTrackingFeatures.updateRouteTrails and
  drawTrail, with JavaScript truthiness of numbers modelled explicitly
  (0 is falsy).

JavaScript numbers are modelled as Int (all constants in the code and in
the claims are integral), object fields that may be absent as Option.
-/

namespace EnhancedTracking

/-- A geolocation fix, mirroring the position object of the browser
geolocation API (position.coords.latitude / longitude / accuracy and
position.timestamp). -/
structure Coords where
  latitude : Int
  longitude : Int
  accuracy : Int
deriving DecidableEq, Repr

structure Position where
  coords : Coords
  timestamp : Nat
deriving DecidableEq, Repr

/-- A geolocation PositionError: code 1 = PERMISSION_DENIED,
2 = POSITION_UNAVAILABLE, 3 = TIMEOUT. -/
structure GeoError where
  code : Nat
  message : String
deriving DecidableEq, Repr

/-- One getCurrentPosition callback delivery: either the success callback
with a position or the error callback with a PositionError. -/
inductive GeoOutcome
  | success (position : Position)
  | failure (e : GeoError)
deriving DecidableEq, Repr

/-- How the promise returned by getCurrentLocationUltraAccuracy settles. -/
inductive UltraOutcome
  | resolved (position : Position)
  | rejected (e : GeoError)
deriving DecidableEq, Repr

def maxAttempts : Nat := 3

/-- The bestPosition update of the UltraAccuracy success callback:
`if (!bestPosition || position.coords.accuracy < bestPosition.coords.accuracy)
bestPosition = position`. -/
def retainBest (bestPosition : Option Position) (position : Position) : Option Position :=
  match bestPosition with
  | none => some position
  | some b => if position.coords.accuracy < b.coords.accuracy then some position else some b

/-- The tryGetLocation loop of getCurrentLocationUltraAccuracy.  The
script lists the callback outcome of each successive getCurrentPosition
call.  State: bestPosition, the attempts counter (incremented on the
success callback only, as in the code), and the number of 2s setTimeout
delays taken so far.  Returns the settling of the promise together with
the final attempts counter and delay count; `none` means the script ran
out before any callback settled the promise (the promise stays pending). -/
def ultraLoop : List GeoOutcome → Option Position → Nat → Nat →
    Option (UltraOutcome × Nat × Nat)
  | [], _, _, _ => none
  | GeoOutcome.success position :: rest, bestPosition, attempts, delays =>
      let attempts := attempts + 1
      if position.coords.accuracy ≤ 20 ∨ maxAttempts ≤ attempts then
        some (UltraOutcome.resolved (bestPosition.getD position), attempts, delays)
      else
        ultraLoop rest (retainBest bestPosition position) attempts (delays + 1)
  | GeoOutcome.failure e :: _, bestPosition, attempts, delays =>
      match bestPosition with
      | some b => some (UltraOutcome.resolved b, attempts, delays)
      | none => some (UltraOutcome.rejected e, attempts, delays)

/-- getCurrentLocationUltraAccuracy, as a function of the scripted
geolocation outcomes: bestPosition starts null, attempts at 0. -/
def getCurrentLocationUltraAccuracy (script : List GeoOutcome) :
    Option (UltraOutcome × Nat × Nat) :=
  ultraLoop script none 0 0

/- Concrete samples used in the claims (latitude/longitude 9, 76; the
accuracy radius is the value named by each claim; timestamps distinct). -/

def p300 : Position := ⟨⟨9, 76, 300⟩, 100⟩
def p80 : Position := ⟨⟨9, 76, 80⟩, 200⟩
def p15 : Position := ⟨⟨9, 76, 15⟩, 300⟩
def p250 : Position := ⟨⟨9, 76, 250⟩, 400⟩
def p280 : Position := ⟨⟨9, 76, 280⟩, 500⟩
def p100 : Position := ⟨⟨9, 76, 100⟩, 600⟩

/-- JavaScript truthiness of a possibly-absent number: undefined/null and
0 are falsy (`if (this.watchId)`, `if (auditor.lat && auditor.lng)`). -/
def jsTruthyNat : Option Nat → Bool
  | none => false
  | some n => n != 0

def jsTruthyInt : Option Int → Bool
  | none => false
  | some v => v != 0

/-- JavaScript truthiness of a possibly-absent string: undefined/null and
the empty string are falsy (`if (this.sessionId)`). -/
def jsTruthyStr : Option String → Bool
  | none => false
  | some s => s != ""

/-- The JavaScript `a || b` fallback on a possibly-absent string, as in
`sessionResponse.error` falling back to the fixed throw message. -/
def jsOr (o : Option String) (d : String) : String :=
  match o with
  | none => d
  | some s => if s == "" then d else s

/-- Parsed JSON body of the /api/location endpoints:
{success: bool, session_id?: string, error?: string}. -/
structure ApiResponse where
  success : Bool
  session_id : Option String
  error : Option String
deriving DecidableEq, Repr

/-- Outcome of an awaited fetch-and-parse round trip: either the parsed
body, or the await threw (network failure, etc.) with the thrown message. -/
inductive FetchOutcome
  | ok (response : ApiResponse)
  | thrown (message : String)
deriving DecidableEq, Repr

/-- A user-visible toast produced by showError / showSuccess. -/
inductive Msg
  | error (text : String)
  | success (text : String)
deriving DecidableEq, Repr

/-- The mutable fields of LocationTracker touched by the lifecycle
methods. -/
structure TrackerState where
  watchId : Option Nat
  isTracking : Bool
  sessionId : Option String
  lastUpdate : Option Nat
  locationHistory : List Position
deriving DecidableEq, Repr

/-- LocationTracker.startTracking.  Inputs beyond the state: how the
awaited getCurrentLocationUltraAccuracy promise settled, the outcome of
the startTrackingSession fetch, the outcome of the initial
sendLocationUpdate fetch, and the id watchPosition hands back.  Returns
the new state and the toasts shown.  Mirrors the try/catch of the code:
any throw lands in the catch, which shows the error and sets
isTracking = false (and touches nothing else). -/
def startTracking (st : TrackerState) (acquisition : UltraOutcome)
    (sessionEndpoint : FetchOutcome) (reportEndpoint : FetchOutcome)
    (newWatchId : Nat) : TrackerState × List Msg :=
  match acquisition with
  | UltraOutcome.rejected e =>
      ({ st with isTracking := false },
       [Msg.error ("Failed to start tracking: " ++ e.message)])
  | UltraOutcome.resolved _ =>
      match sessionEndpoint with
      | FetchOutcome.thrown m =>
          ({ st with isTracking := false },
           [Msg.error ("Failed to start tracking: " ++ m)])
      | FetchOutcome.ok sessionResponse =>
          if !sessionResponse.success then
            ({ st with isTracking := false },
             [Msg.error ("Failed to start tracking: " ++
                jsOr sessionResponse.error "Failed to start tracking session")])
          else
            let st := { st with sessionId := sessionResponse.session_id,
                                isTracking := true,
                                watchId := some newWatchId }
            match reportEndpoint with
            | FetchOutcome.thrown m =>
                ({ st with isTracking := false },
                 [Msg.error ("Failed to start tracking: " ++ m)])
            | FetchOutcome.ok result =>
                if !result.success then
                  ({ st with isTracking := false },
                   [Msg.error ("Failed to start tracking: " ++
                      jsOr result.error "Failed to update location")])
                else
                  (st, [Msg.success "High-precision tracking started! 🎯"])

/-- LocationTracker.stopTracking.  The extra input is the outcome of the
awaited stopTrackingSession fetch (only reached when sessionId is
truthy; its parsed body is discarded by the code).  A throw lands in the
catch before isTracking / sessionId / lastUpdate are reset; the watch,
cleared first, stays cleared.  locationHistory is never touched. -/
def stopTracking (st : TrackerState) (stopEndpoint : FetchOutcome) :
    TrackerState × List Msg :=
  let st := if jsTruthyNat st.watchId then { st with watchId := none } else st
  if jsTruthyStr st.sessionId then
    match stopEndpoint with
    | FetchOutcome.thrown m =>
        (st, [Msg.error ("Error stopping tracking: " ++ m)])
    | FetchOutcome.ok _ =>
        ({ st with isTracking := false, sessionId := none, lastUpdate := none },
         [Msg.success "Location tracking stopped 🛑"])
  else
    ({ st with isTracking := false, sessionId := none, lastUpdate := none },
     [Msg.success "Location tracking stopped 🛑"])

/-- LocationTracker.onLocationError: code 3 returns silently; code 1
sets isTracking = false; codes 1 and 2 (and the default) show an error. -/
def onLocationError (st : TrackerState) (e : GeoError) : TrackerState × List Msg :=
  if e.code == 3 then (st, [])
  else if e.code == 1 then
    ({ st with isTracking := false },
     [Msg.error ("Location permission denied." ++
        " Please enable location access in your browser settings.")])
  else if e.code == 2 then
    (st, [Msg.error ("Location unavailable." ++
       " Check GPS signal and internet connection.")])
  else (st, [Msg.error "Unknown location error"])

/-- One entity snapshot of the dashboard feed consumed by checkForAlerts
and updateRouteTrails. -/
structure Auditor where
  id : String
  username : String
  status_class : String
  accuracy : Option Int
  lat : Option Int
  lng : Option Int
  last_update : Nat
deriving DecidableEq, Repr

structure Alert where
  id : String
  type : String
  title : String
  message : String
  timestamp : Nat
deriving DecidableEq, Repr

/-- this.alerts.some(alert => alert.id === alertId). -/
def hasAlert (alerts : List Alert) (alertId : String) : Bool :=
  alerts.any fun alert => alert.id == alertId

/-- this.alerts.push(alert). -/
def addAlert (alerts : List Alert) (alert : Alert) : List Alert :=
  alerts ++ [alert]

/-- this.alerts = this.alerts.filter(alert => alert.id !== alertId). -/
def removeAlert (alerts : List Alert) (alertId : String) : List Alert :=
  alerts.filter fun alert => alert.id != alertId

/-- `auditor.accuracy > 500` under JavaScript semantics: false when the
field is absent (undefined compares false). -/
def accuracyAbove500 : Option Int → Bool
  | none => false
  | some a => 500 < a

/-- First block of the checkForAlerts body: raise the offline alert,
guarded by hasAlert on the current list. -/
def offlineStep (now : Nat) (auditor : Auditor) (alerts : List Alert) : List Alert :=
  if auditor.status_class == "offline" &&
      !(hasAlert alerts ("offline_" ++ auditor.id)) then
    addAlert alerts
      ⟨"offline_" ++ auditor.id, "warning", "Auditor Offline",
       auditor.username ++ " has been offline for over 15 minutes", now⟩
  else alerts

/-- Second block: raise the low-accuracy alert, guarded likewise. -/
def accuracyStep (now : Nat) (auditor : Auditor) (alerts : List Alert) : List Alert :=
  if accuracyAbove500 auditor.accuracy &&
      !(hasAlert alerts ("accuracy_" ++ auditor.id)) then
    addAlert alerts
      ⟨"accuracy_" ++ auditor.id, "warning", "Low Location Accuracy",
       auditor.username ++ " has low GPS accuracy (±" ++
         toString (auditor.accuracy.getD 0) ++ "m)", now⟩
  else alerts

/-- Third block: clear both alerts when the auditor is back online. -/
def onlineClearStep (auditor : Auditor) (alerts : List Alert) : List Alert :=
  if auditor.status_class == "online" then
    removeAlert (removeAlert alerts ("offline_" ++ auditor.id))
      ("accuracy_" ++ auditor.id)
  else alerts

/-- The per-auditor body of checkForAlerts: the three blocks run in
order, each reading the alerts list the previous one left (the code
rebinds this.alerts between them via push / filter). -/
def processAuditor (now : Nat) (alerts : List Alert) (auditor : Auditor) : List Alert :=
  onlineClearStep auditor (accuracyStep now auditor (offlineStep now auditor alerts))

/-- EnhancedTrackingFeatures.checkForAlerts over one snapshot list. -/
def checkForAlerts (now : Nat) (alerts : List Alert) (auditors : List Auditor) :
    List Alert :=
  auditors.foldl (processAuditor now) alerts

/-- The alerts list after a whole sequence of checkForAlerts calls,
starting from the empty list of the constructor.  Each call carries its
own clock reading. -/
def evaluateAll (calls : List (Nat × List Auditor)) : List Alert :=
  calls.foldl (fun alerts call => checkForAlerts call.1 alerts call.2) []

/-- A stored trail point {lat, lng, timestamp: auditor.last_update}. -/
structure TrailPoint where
  lat : Int
  lng : Int
  timestamp : Nat
deriving DecidableEq, Repr

/-- Trail bookkeeping state: this.previousPositions (default empty per
entity) and this.routes, recording the path of the polyline currently
rendered for each entity. -/
structure TrailState where
  previousPositions : String → List TrailPoint
  routes : String → Option (List (Int × Int))

/-- EnhancedTrackingFeatures.drawTrail: below 2 points, return without
touching the map; otherwise replace the rendered polyline for the
entity with one covering the given positions. -/
def drawTrail (st : TrailState) (auditorId : String) (positions : List TrailPoint) :
    TrailState :=
  if positions.length < 2 then st
  else
    { st with routes := fun j =>
        if j == auditorId then some (positions.map fun pos => (pos.lat, pos.lng))
        else st.routes j }

/-- The per-auditor body of updateRouteTrails: guard on truthiness of
lat and lng, append the new position when it differs from the last one,
shift beyond 20, and redraw. -/
def updateOneTrail (st : TrailState) (auditor : Auditor) : TrailState :=
  if jsTruthyInt auditor.lat && jsTruthyInt auditor.lng then
    let auditorId := auditor.id
    let newPosition : TrailPoint :=
      ⟨auditor.lat.getD 0, auditor.lng.getD 0, auditor.last_update⟩
    let positions := st.previousPositions auditorId
    let changed : Bool :=
      match positions.getLast? with
      | none => true
      | some lastPosition =>
          lastPosition.lat != newPosition.lat || lastPosition.lng != newPosition.lng
    if changed then
      let positions := positions ++ [newPosition]
      let positions := if positions.length > 20 then positions.tail else positions
      let st := { st with previousPositions := fun j =>
          if j == auditorId then positions else st.previousPositions j }
      drawTrail st auditorId positions
    else st
  else st

/-- EnhancedTrackingFeatures.updateRouteTrails over one snapshot list. -/
def updateRouteTrails (st : TrailState) (auditors : List Auditor) : TrailState :=
  auditors.foldl updateOneTrail st

/- Concrete states and feed entries used as inputs of the
counterexamples and witnesses. -/

def activeSt : TrackerState := ⟨some 5, true, some "sess-1", some 0, []⟩
def activeSt2 : TrackerState := ⟨some 7, true, some "sess-2", some 3, [p300]⟩
def idleSt : TrackerState := ⟨none, false, none, none, []⟩
def okSession : ApiResponse := ⟨true, some "sess-9", none⟩
def okStop : ApiResponse := ⟨true, none, none⟩
def rejSession : ApiResponse := ⟨false, none, some "quota exceeded"⟩

def trailSt1 : TrailState :=
  ⟨fun j => if j == "a1" then [⟨10, 20, 1⟩] else [], fun _ => none⟩
def auditor1 : Auditor := ⟨"a1", "amal", "online", some 30, some 10, some 20, 5⟩
def auditor0 : Auditor := ⟨"a2", "binu", "online", some 40, some 0, some 77, 9⟩

end EnhancedTracking

namespace EnhancedTracking

/-- C1: evaluation of the code at the claimed input.  For the scripted
accuracy sequence [300m, 80m, 15m] the acquisition does resolve after
exactly 3 attempts and two 2s delays, but with the retained 80m sample,
not with the 15m sample whose accuracy radius is below the 20m
threshold: the success callback resolves `bestPosition || position`, and
the stale best (always above 20m) displaces the good sample. -/
theorem ultraAccuracy_good_sample_displaced_by_stale_best :
    getCurrentLocationUltraAccuracy
      [GeoOutcome.success p300, GeoOutcome.success p80, GeoOutcome.success p15] =
      some (UltraOutcome.resolved p80, 3, 2) ∧
    p15.coords.accuracy ≤ 20 ∧ 20 < p80.coords.accuracy := by decide

/-- C2, counterexample: for the scripted accuracies [300m, 250m, 100m]
(all three attempts succeed, none at or below 20m) the acquisition
resolves with the 250m sample, yet the 100m sample was seen and has a
strictly lower accuracy radius — the final attempt is never compared
into bestPosition, so the result is not the best sample seen across the
attempts. -/
theorem ultraAccuracy_not_best_seen_cx :
    getCurrentLocationUltraAccuracy
      [GeoOutcome.success p300, GeoOutcome.success p250, GeoOutcome.success p100] =
      some (UltraOutcome.resolved p250, 3, 2) ∧
    p100.coords.accuracy < p250.coords.accuracy := by decide

/-- C2, amended: when all 3 attempts succeed and none yields an accuracy
radius at or below 20m, the acquisition resolves after exhausting the
attempt budget (3 attempts, two 2s delays) with the best sample retained
from the first two attempts; the final sample is never retained. -/
theorem ultraAccuracy_budget_exhausted_best_of_first_two
    (p1 p2 p3 : Position)
    (h1 : 20 < p1.coords.accuracy) (h2 : 20 < p2.coords.accuracy)
    (h3 : 20 < p3.coords.accuracy) :
    getCurrentLocationUltraAccuracy
      [GeoOutcome.success p1, GeoOutcome.success p2, GeoOutcome.success p3] =
      some (UltraOutcome.resolved
        (if p2.coords.accuracy < p1.coords.accuracy then p2 else p1), 3, 2) := by
  have n1 := not_le.mpr h1
  have n2 := not_le.mpr h2
  simp only [getCurrentLocationUltraAccuracy, ultraLoop, maxAttempts, retainBest]
  rw [if_neg (by omega), if_neg (by omega), if_pos (by omega)]
  by_cases hc : p2.coords.accuracy < p1.coords.accuracy <;> simp [hc]

/-- C2, witness: the amended statement at the scripted sequence
[300m, 250m, 280m] of the spec resolves with the 250m sample. -/
theorem ultraAccuracy_budget_exhausted_best_of_first_two_witness :
    (20 < p300.coords.accuracy ∧ 20 < p250.coords.accuracy ∧
      20 < p280.coords.accuracy) ∧
    getCurrentLocationUltraAccuracy
      [GeoOutcome.success p300, GeoOutcome.success p250, GeoOutcome.success p280] =
      some (UltraOutcome.resolved p250, 3, 2) :=
  ⟨by decide,
   ultraAccuracy_budget_exhausted_best_of_first_two p300 p250 p280
     (by decide) (by decide) (by decide)⟩

/-- Behaviour of the tryGetLocation loop when the error callback fires
after a run of retained (above-20m, within-budget) successes: the
retained best, accumulated by retainBest, decides between resolve and
reject. -/
theorem ultraLoop_failure_general (pre : List Position) (e : GeoError)
    (rest : List GeoOutcome) (best : Option Position) (attempts delays : Nat)
    (hlen : attempts + pre.length < maxAttempts)
    (hacc : ∀ p ∈ pre, 20 < p.coords.accuracy) :
    ultraLoop (pre.map GeoOutcome.success ++ GeoOutcome.failure e :: rest)
        best attempts delays =
      some ((match pre.foldl retainBest best with
             | some b => UltraOutcome.resolved b
             | none => UltraOutcome.rejected e),
            attempts + pre.length, delays + pre.length) := by
  induction pre generalizing best attempts delays with
  | nil =>
      simp only [List.map_nil, List.nil_append, ultraLoop, List.foldl_nil,
        Nat.add_zero]
      cases best <;> rfl
  | cons p ps ih =>
      have hp := hacc p (by simp)
      have hcond : ¬(p.coords.accuracy ≤ 20 ∨ maxAttempts ≤ attempts + 1) := by
        have := not_le.mpr hp
        simp only [List.length_cons, maxAttempts] at hlen ⊢
        omega
      have hlen2 : attempts + 1 + ps.length < maxAttempts := by
        simp only [List.length_cons] at hlen
        omega
      simp only [List.map_cons, List.cons_append, ultraLoop]
      rw [if_neg hcond]
      simp only [List.append_eq]
      rw [ih (retainBest best p) (attempts + 1) (delays + 1) hlen2
        (fun q hq => hacc q (by simp [hq]))]
      simp only [List.foldl_cons, List.length_cons]
      have e1 : attempts + 1 + ps.length = attempts + (ps.length + 1) := by omega
      have e2 : delays + 1 + ps.length = delays + (ps.length + 1) := by omega
      rw [e1, e2]

/-- C9: if an UltraAccuracy attempt fails with a PositionError after a
run of successful attempts none of which resolved (all above 20m, within
the attempt budget), then: with no sample ever retained (empty run) the
acquisition rejects with that failure — necessarily the failure of the
last attempt made, since the error callback always settles the promise;
with a sample retained, it resolves with the retained best instead of
failing. -/
theorem ultraAccuracy_failure_path (pre : List Position) (e : GeoError)
    (rest : List GeoOutcome)
    (hlen : pre.length < maxAttempts)
    (hacc : ∀ p ∈ pre, 20 < p.coords.accuracy) :
    getCurrentLocationUltraAccuracy
        (pre.map GeoOutcome.success ++ GeoOutcome.failure e :: rest) =
      some ((match pre.foldl retainBest none with
             | some b => UltraOutcome.resolved b
             | none => UltraOutcome.rejected e),
            pre.length, pre.length) := by
  simpa using ultraLoop_failure_general pre e rest none 0 0 (by omega) hacc

/-- C9, witness: a 300m success followed by a timeout failure resolves
with the retained 300m sample. -/
theorem ultraAccuracy_failure_path_witness :
    ([p300].length < maxAttempts ∧ ∀ p ∈ [p300], 20 < p.coords.accuracy) ∧
    getCurrentLocationUltraAccuracy
      [GeoOutcome.success p300, GeoOutcome.failure ⟨3, "timeout"⟩] =
      some (UltraOutcome.resolved p300, 1, 1) :=
  ⟨by decide,
   ultraAccuracy_failure_path [p300] ⟨3, "timeout"⟩ [] (by decide) (by decide)⟩

/-- C3, counterexample: a PermissionDenied error (code 1) delivered in
an Active state (watch 5 registered, session "sess-1") leaves the watch
id registered and the session id set — onLocationError only flips
isTracking and refreshes the UI, it never calls clearWatch and never
clears this.sessionId. -/
theorem permissionDenied_keeps_watch_and_session_cx :
    activeSt.isTracking = true ∧
    (onLocationError activeSt ⟨1, "denied"⟩).1.watchId = some 5 ∧
    (onLocationError activeSt ⟨1, "denied"⟩).1.sessionId = some "sess-1" := by
  refine ⟨rfl, rfl, rfl⟩

/-- C3, amended: a PermissionDenied error delivered by the
continuous-watch error callback sets isTracking to false (the Idle
flag), but leaves both the watch subscription id and the session id
exactly as they were. -/
theorem onLocationError_permissionDenied_only_clears_flag
    (st : TrackerState) (e : GeoError) (h : e.code = 1) :
    (onLocationError st e).1.isTracking = false ∧
    (onLocationError st e).1.watchId = st.watchId ∧
    (onLocationError st e).1.sessionId = st.sessionId := by
  simp [onLocationError, h]

/-- C3, witness: the amended statement at the Active state and a code-1
error. -/
theorem onLocationError_permissionDenied_only_clears_flag_witness :
    (⟨1, "denied"⟩ : GeoError).code = 1 ∧
    ((onLocationError activeSt ⟨1, "denied"⟩).1.isTracking = false ∧
     (onLocationError activeSt ⟨1, "denied"⟩).1.watchId = activeSt.watchId ∧
     (onLocationError activeSt ⟨1, "denied"⟩).1.sessionId = activeSt.sessionId) :=
  ⟨rfl, onLocationError_permissionDenied_only_clears_flag activeSt ⟨1, "denied"⟩ rfl⟩

/-- C4, counterexample: stop() from the Active state ⟨watch 7, tracking,
session "sess-2", history [p300]⟩.  When the stop-session fetch throws,
the catch is reached before the state reset: isTracking stays true and
the session id stays set, contradicting the claim that the endpoint
failure does not block the local transition.  And even when the fetch
completes, the location history is not cleared. -/
theorem stopTracking_blocked_and_history_kept_cx :
    (stopTracking activeSt2 (FetchOutcome.thrown "NetworkError")).1.isTracking = true ∧
    (stopTracking activeSt2 (FetchOutcome.thrown "NetworkError")).1.sessionId =
      some "sess-2" ∧
    (stopTracking activeSt2 (FetchOutcome.ok okStop)).1.locationHistory = [p300] := by
  refine ⟨rfl, rfl, rfl⟩

/-- C4, amended: stop() with a registered watch and a session always
cancels the watch first and never clears the location history; if the
stop-session fetch completes (whatever its body says) the controller
clears the session id and transitions to Idle; if the fetch throws, the
failure is reported as an error toast and isTracking and the session id
are left unchanged. -/
theorem stopTracking_endpoint_dependent (st : TrackerState)
    (r : ApiResponse) (m : String)
    (hw : jsTruthyNat st.watchId = true) (hs : jsTruthyStr st.sessionId = true) :
    (stopTracking st (FetchOutcome.ok r)).1.watchId = none ∧
    (stopTracking st (FetchOutcome.thrown m)).1.watchId = none ∧
    (stopTracking st (FetchOutcome.ok r)).1.locationHistory = st.locationHistory ∧
    (stopTracking st (FetchOutcome.thrown m)).1.locationHistory = st.locationHistory ∧
    (stopTracking st (FetchOutcome.ok r)).1.isTracking = false ∧
    (stopTracking st (FetchOutcome.ok r)).1.sessionId = none ∧
    (stopTracking st (FetchOutcome.thrown m)).1.isTracking = st.isTracking ∧
    (stopTracking st (FetchOutcome.thrown m)).1.sessionId = st.sessionId ∧
    (stopTracking st (FetchOutcome.thrown m)).2 =
      [Msg.error ("Error stopping tracking: " ++ m)] := by
  simp [stopTracking, hw, hs]

/-- C4, witness: the amended statement at the Active state, a parsed
stop response and a thrown network error. -/
theorem stopTracking_endpoint_dependent_witness :
    (jsTruthyNat activeSt2.watchId = true ∧
      jsTruthyStr activeSt2.sessionId = true) ∧
    ((stopTracking activeSt2 (FetchOutcome.ok okStop)).1.watchId = none ∧
     (stopTracking activeSt2 (FetchOutcome.thrown "NetworkError")).1.watchId = none ∧
     (stopTracking activeSt2 (FetchOutcome.ok okStop)).1.locationHistory =
       activeSt2.locationHistory ∧
     (stopTracking activeSt2 (FetchOutcome.thrown "NetworkError")).1.locationHistory =
       activeSt2.locationHistory ∧
     (stopTracking activeSt2 (FetchOutcome.ok okStop)).1.isTracking = false ∧
     (stopTracking activeSt2 (FetchOutcome.ok okStop)).1.sessionId = none ∧
     (stopTracking activeSt2 (FetchOutcome.thrown "NetworkError")).1.isTracking =
       activeSt2.isTracking ∧
     (stopTracking activeSt2 (FetchOutcome.thrown "NetworkError")).1.sessionId =
       activeSt2.sessionId ∧
     (stopTracking activeSt2 (FetchOutcome.thrown "NetworkError")).2 =
       [Msg.error ("Error stopping tracking: " ++ "NetworkError")]) :=
  ⟨⟨by decide, by decide⟩,
   stopTracking_endpoint_dependent activeSt2 okStop "NetworkError"
     (by decide) (by decide)⟩

/-- C5, counterexample: start() from Idle where the acquisition and the
session request succeed (session "sess-9" accepted, watch 77 registered)
but the initial location report throws: the catch only sets isTracking
to false, leaving an inactive state holding a live watch subscription
and a retained session id — exactly the ambiguous state the claim says
cannot arise. -/
theorem startTracking_report_failure_ambiguous_state_cx :
    (startTracking idleSt (UltraOutcome.resolved p15) (FetchOutcome.ok okSession)
        (FetchOutcome.thrown "NetworkError") 77).1.isTracking = false ∧
    (startTracking idleSt (UltraOutcome.resolved p15) (FetchOutcome.ok okSession)
        (FetchOutcome.thrown "NetworkError") 77).1.watchId = some 77 ∧
    (startTracking idleSt (UltraOutcome.resolved p15) (FetchOutcome.ok okSession)
        (FetchOutcome.thrown "NetworkError") 77).1.sessionId = some "sess-9" := by
  refine ⟨rfl, rfl, rfl⟩

/-- C5, amended: from Idle, every start() failure before the session is
accepted (acquisition rejected, session fetch thrown, or session
rejected) resolves to a clean Idle state — not tracking, no watch, no
session id; but a failure of the initial location report after the
session is accepted (thrown fetch or unsuccessful response body) leaves
isTracking false with the watch subscription registered and the session
id retained. -/
theorem startTracking_failure_paths (st : TrackerState)
    (se re : FetchOutcome) (w : Nat) (e : GeoError) (p : Position)
    (r r2 : ApiResponse) (m : String)
    (hW : st.watchId = none) (hS : st.sessionId = none)
    (hr : r.success = true) (hr2 : r2.success = false) :
    ((startTracking st (UltraOutcome.rejected e) se re w).1.isTracking = false ∧
     (startTracking st (UltraOutcome.rejected e) se re w).1.watchId = none ∧
     (startTracking st (UltraOutcome.rejected e) se re w).1.sessionId = none) ∧
    ((startTracking st (UltraOutcome.resolved p) (FetchOutcome.thrown m) re w).1.isTracking
        = false ∧
     (startTracking st (UltraOutcome.resolved p) (FetchOutcome.thrown m) re w).1.watchId
        = none ∧
     (startTracking st (UltraOutcome.resolved p) (FetchOutcome.thrown m) re w).1.sessionId
        = none) ∧
    ((startTracking st (UltraOutcome.resolved p) (FetchOutcome.ok r2) re w).1.isTracking
        = false ∧
     (startTracking st (UltraOutcome.resolved p) (FetchOutcome.ok r2) re w).1.watchId
        = none ∧
     (startTracking st (UltraOutcome.resolved p) (FetchOutcome.ok r2) re w).1.sessionId
        = none) ∧
    ((startTracking st (UltraOutcome.resolved p) (FetchOutcome.ok r)
        (FetchOutcome.thrown m) w).1.isTracking = false ∧
     (startTracking st (UltraOutcome.resolved p) (FetchOutcome.ok r)
        (FetchOutcome.thrown m) w).1.watchId = some w ∧
     (startTracking st (UltraOutcome.resolved p) (FetchOutcome.ok r)
        (FetchOutcome.thrown m) w).1.sessionId = r.session_id) ∧
    ((startTracking st (UltraOutcome.resolved p) (FetchOutcome.ok r)
        (FetchOutcome.ok r2) w).1.isTracking = false ∧
     (startTracking st (UltraOutcome.resolved p) (FetchOutcome.ok r)
        (FetchOutcome.ok r2) w).1.watchId = some w ∧
     (startTracking st (UltraOutcome.resolved p) (FetchOutcome.ok r)
        (FetchOutcome.ok r2) w).1.sessionId = r.session_id) := by
  simp [startTracking, hW, hS, hr, hr2]

/-- C5, witness: the amended statement at the Idle state, session
"sess-9", watch 77, a rejected response and a thrown report. -/
theorem startTracking_failure_paths_witness :
    (idleSt.watchId = none ∧ idleSt.sessionId = none ∧
      okSession.success = true ∧ rejSession.success = false) ∧
    ((startTracking idleSt (UltraOutcome.rejected ⟨3, "timeout"⟩)
        (FetchOutcome.ok okSession) (FetchOutcome.thrown "boom") 77).1.isTracking = false ∧
     (startTracking idleSt (UltraOutcome.rejected ⟨3, "timeout"⟩)
        (FetchOutcome.ok okSession) (FetchOutcome.thrown "boom") 77).1.watchId = none ∧
     (startTracking idleSt (UltraOutcome.rejected ⟨3, "timeout"⟩)
        (FetchOutcome.ok okSession) (FetchOutcome.thrown "boom") 77).1.sessionId = none) ∧
    ((startTracking idleSt (UltraOutcome.resolved p15) (FetchOutcome.thrown "boom")
        (FetchOutcome.thrown "boom") 77).1.isTracking = false ∧
     (startTracking idleSt (UltraOutcome.resolved p15) (FetchOutcome.thrown "boom")
        (FetchOutcome.thrown "boom") 77).1.watchId = none ∧
     (startTracking idleSt (UltraOutcome.resolved p15) (FetchOutcome.thrown "boom")
        (FetchOutcome.thrown "boom") 77).1.sessionId = none) ∧
    ((startTracking idleSt (UltraOutcome.resolved p15) (FetchOutcome.ok rejSession)
        (FetchOutcome.thrown "boom") 77).1.isTracking = false ∧
     (startTracking idleSt (UltraOutcome.resolved p15) (FetchOutcome.ok rejSession)
        (FetchOutcome.thrown "boom") 77).1.watchId = none ∧
     (startTracking idleSt (UltraOutcome.resolved p15) (FetchOutcome.ok rejSession)
        (FetchOutcome.thrown "boom") 77).1.sessionId = none) ∧
    ((startTracking idleSt (UltraOutcome.resolved p15) (FetchOutcome.ok okSession)
        (FetchOutcome.thrown "boom") 77).1.isTracking = false ∧
     (startTracking idleSt (UltraOutcome.resolved p15) (FetchOutcome.ok okSession)
        (FetchOutcome.thrown "boom") 77).1.watchId = some 77 ∧
     (startTracking idleSt (UltraOutcome.resolved p15) (FetchOutcome.ok okSession)
        (FetchOutcome.thrown "boom") 77).1.sessionId = okSession.session_id) ∧
    ((startTracking idleSt (UltraOutcome.resolved p15) (FetchOutcome.ok okSession)
        (FetchOutcome.ok rejSession) 77).1.isTracking = false ∧
     (startTracking idleSt (UltraOutcome.resolved p15) (FetchOutcome.ok okSession)
        (FetchOutcome.ok rejSession) 77).1.watchId = some 77 ∧
     (startTracking idleSt (UltraOutcome.resolved p15) (FetchOutcome.ok okSession)
        (FetchOutcome.ok rejSession) 77).1.sessionId = okSession.session_id) :=
  ⟨⟨rfl, rfl, rfl, rfl⟩,
   startTracking_failure_paths idleSt (FetchOutcome.ok okSession)
     (FetchOutcome.thrown "boom") 77 ⟨3, "timeout"⟩ p15 okSession rejSession "boom"
     rfl rfl rfl rfl⟩

/-- C7: start() from Idle whose session request is answered with an
unsuccessful body carrying a non-empty error string leaves the state
exactly as it was (Idle: not tracking, no watch subscription, no
session id) and shows the rejection reason inside the surfaced error
toast. -/
theorem startTracking_session_rejected_remains_idle (st : TrackerState)
    (re : FetchOutcome) (w : Nat) (p : Position) (r : ApiResponse) (reason : String)
    (hT : st.isTracking = false) (hW : st.watchId = none) (hS : st.sessionId = none)
    (hrej : r.success = false) (herr : r.error = some reason) (hne : reason ≠ "") :
    (startTracking st (UltraOutcome.resolved p) (FetchOutcome.ok r) re w).1 = st ∧
    (startTracking st (UltraOutcome.resolved p) (FetchOutcome.ok r) re w).2 =
      [Msg.error ("Failed to start tracking: " ++ reason)] := by
  obtain ⟨w0, t0, s0, l0, h0⟩ := st
  simp only [TrackerState.mk.injEq] at hT hW hS ⊢
  subst hT
  simp [startTracking, hrej, herr, jsOr, hne]

/-- C7, witness: session rejection with reason "quota exceeded" from the
Idle state. -/
theorem startTracking_session_rejected_remains_idle_witness :
    (idleSt.isTracking = false ∧ idleSt.watchId = none ∧ idleSt.sessionId = none ∧
      rejSession.success = false ∧ rejSession.error = some "quota exceeded" ∧
      "quota exceeded" ≠ "") ∧
    ((startTracking idleSt (UltraOutcome.resolved p15) (FetchOutcome.ok rejSession)
        (FetchOutcome.ok okStop) 42).1 = idleSt ∧
     (startTracking idleSt (UltraOutcome.resolved p15) (FetchOutcome.ok rejSession)
        (FetchOutcome.ok okStop) 42).2 =
       [Msg.error ("Failed to start tracking: " ++ "quota exceeded")]) :=
  ⟨⟨rfl, rfl, rfl, rfl, rfl, by decide⟩,
   startTracking_session_rejected_remains_idle idleSt (FetchOutcome.ok okStop) 42 p15
     rejSession "quota exceeded" rfl rfl rfl rfl rfl (by decide)⟩

/-- When hasAlert answers false, the id is not among the stored ids. -/
theorem not_mem_map_id_of_hasAlert_false {alerts : List Alert} {aid : String}
    (h : hasAlert alerts aid = false) : aid ∉ alerts.map Alert.id := by
  intro hmem
  obtain ⟨a, ha, hid⟩ := List.mem_map.mp hmem
  have : alerts.any (fun alert => alert.id == aid) = true :=
    List.any_eq_true.mpr ⟨a, ha, by simp [hid]⟩
  rw [hasAlert] at h
  simp [this] at h

/-- addAlert keeps the stored ids duplicate-free when the added id is
not already present (the hasAlert guard of checkForAlerts). -/
theorem nodup_addAlert {alerts : List Alert} {alert : Alert}
    (hn : (alerts.map Alert.id).Nodup)
    (h : hasAlert alerts alert.id = false) :
    ((addAlert alerts alert).map Alert.id).Nodup := by
  have hnm := not_mem_map_id_of_hasAlert_false h
  simp only [addAlert, List.map_append, List.map_cons, List.map_nil]
  exact List.Nodup.append hn (List.nodup_singleton _)
    (by simpa [List.disjoint_singleton] using hnm)

/-- removeAlert (a filter) keeps the stored ids duplicate-free. -/
theorem nodup_removeAlert {alerts : List Alert} (aid : String)
    (hn : (alerts.map Alert.id).Nodup) :
    ((removeAlert alerts aid).map Alert.id).Nodup :=
  hn.sublist (List.Sublist.map Alert.id (List.filter_sublist alerts))

/-- A guarded add of the checkForAlerts shape keeps the ids
duplicate-free. -/
theorem nodup_guarded_add (alerts : List Alert) (b : Bool) (alert : Alert)
    (hn : (alerts.map Alert.id).Nodup) :
    ((if b && !(hasAlert alerts alert.id) then addAlert alerts alert
      else alerts).map Alert.id).Nodup := by
  by_cases hb : (b && !(hasAlert alerts alert.id)) = true
  · rcases Bool.and_eq_true_iff.mp hb with ⟨_, h2⟩
    rw [if_pos hb]
    exact nodup_addAlert hn (by simpa using h2)
  · rw [if_neg hb]
    exact hn

theorem nodup_offlineStep (now : Nat) (auditor : Auditor) (alerts : List Alert)
    (hn : (alerts.map Alert.id).Nodup) :
    ((offlineStep now auditor alerts).map Alert.id).Nodup :=
  nodup_guarded_add alerts (auditor.status_class == "offline")
    ⟨"offline_" ++ auditor.id, "warning", "Auditor Offline",
     auditor.username ++ " has been offline for over 15 minutes", now⟩ hn

theorem nodup_accuracyStep (now : Nat) (auditor : Auditor) (alerts : List Alert)
    (hn : (alerts.map Alert.id).Nodup) :
    ((accuracyStep now auditor alerts).map Alert.id).Nodup :=
  nodup_guarded_add alerts (accuracyAbove500 auditor.accuracy)
    ⟨"accuracy_" ++ auditor.id, "warning", "Low Location Accuracy",
     auditor.username ++ " has low GPS accuracy (±" ++
       toString (auditor.accuracy.getD 0) ++ "m)", now⟩ hn

theorem nodup_onlineClearStep (auditor : Auditor) (alerts : List Alert)
    (hn : (alerts.map Alert.id).Nodup) :
    ((onlineClearStep auditor alerts).map Alert.id).Nodup := by
  unfold onlineClearStep
  by_cases hb : (auditor.status_class == "online") = true
  · rw [if_pos hb]
    exact nodup_removeAlert _ (nodup_removeAlert _ hn)
  · rw [if_neg hb]
    exact hn

theorem nodup_processAuditor (now : Nat) (auditor : Auditor) (alerts : List Alert)
    (hn : (alerts.map Alert.id).Nodup) :
    ((processAuditor now alerts auditor).map Alert.id).Nodup :=
  nodup_onlineClearStep _ _ (nodup_accuracyStep _ _ _ (nodup_offlineStep _ _ _ hn))

theorem nodup_checkForAlerts (now : Nat) (auditors : List Auditor)
    (alerts : List Alert) (hn : (alerts.map Alert.id).Nodup) :
    ((checkForAlerts now alerts auditors).map Alert.id).Nodup := by
  induction auditors generalizing alerts with
  | nil => exact hn
  | cons a as ih =>
      simp only [checkForAlerts, List.foldl_cons] at ih ⊢
      exact ih _ (nodup_processAuditor now a alerts hn)

/-- C6: across any sequence of checkForAlerts calls starting from the
empty alert set of the constructor, the stored alert ids are pairwise
distinct.  Every alert raised carries the id `kind_entityId` (kind ∈
{offline, accuracy}), so two entries with the same (kind, entityId)
pair would have the same id: distinctness of the ids is exactly the
at-most-one-alert-per-(kind, entityId) invariant. -/
theorem checkForAlerts_never_duplicates_kind_entity
    (calls : List (Nat × List Auditor)) :
    ((evaluateAll calls).map Alert.id).Nodup := by
  suffices h : ∀ (start : List Alert), (start.map Alert.id).Nodup →
      ((calls.foldl (fun alerts call => checkForAlerts call.1 alerts call.2)
          start).map Alert.id).Nodup by
    exact h [] (by simp)
  induction calls with
  | nil => exact fun s hs => hs
  | cons c cs ih =>
      intro s hs
      simp only [List.foldl_cons]
      exact ih _ (nodup_checkForAlerts c.1 c.2 s hs)

/-- C8: two facts about the trail engine.  First, when the incoming
entity coordinates equal the last stored trail point (whatever the
timestamps), updateRouteTrails leaves the whole trail state unchanged
for that entity: nothing is appended and nothing is redrawn.  Second,
drawTrail returns the state untouched whenever the positions list has
fewer than 2 points, so such a trail is never rendered. -/
theorem trail_last_point_noop_and_min_two_render :
    (∀ (st : TrailState) (auditor : Auditor) (lastPosition : TrailPoint),
       (st.previousPositions auditor.id).getLast? = some lastPosition →
       lastPosition.lat = auditor.lat.getD 0 →
       lastPosition.lng = auditor.lng.getD 0 →
       updateOneTrail st auditor = st) ∧
    (∀ (st : TrailState) (auditorId : String) (positions : List TrailPoint),
       positions.length < 2 → drawTrail st auditorId positions = st) := by
  constructor
  · intro st auditor lastPosition hlast hlat hlng
    by_cases hg : (jsTruthyInt auditor.lat && jsTruthyInt auditor.lng) = true
    · simp [updateOneTrail, hg, hlast, ← hlat, ← hlng]
    · simp [updateOneTrail, hg]
  · intro st auditorId positions hlen
    rw [drawTrail, if_pos hlen]

/-- C8, witness: the online auditor a1 reports the same (10, 20)
coordinates as the last stored trail point, so the state is unchanged;
and drawTrail of a single point changes nothing. -/
theorem trail_last_point_noop_and_min_two_render_witness :
    (trailSt1.previousPositions auditor1.id).getLast? = some ⟨10, 20, 1⟩ ∧
    ((⟨10, 20, 1⟩ : TrailPoint).lat = auditor1.lat.getD 0 ∧
      (⟨10, 20, 1⟩ : TrailPoint).lng = auditor1.lng.getD 0 ∧
      ([(⟨10, 20, 1⟩ : TrailPoint)]).length < 2) ∧
    updateOneTrail trailSt1 auditor1 = trailSt1 ∧
    drawTrail trailSt1 "a1" [⟨10, 20, 1⟩] = trailSt1 :=
  ⟨by decide, ⟨by decide, by decide, by decide⟩,
   trail_last_point_noop_and_min_two_render.1 trailSt1 auditor1 ⟨10, 20, 1⟩
     (by decide) (by decide) (by decide),
   trail_last_point_noop_and_min_two_render.2 trailSt1 "a1" [⟨10, 20, 1⟩] (by decide)⟩

/-- An entity whose lat or lng is the number 0 fails the truthiness
guard of updateRouteTrails, so its per-entity step does nothing. -/
theorem updateOneTrail_zero_coord (st : TrailState) (auditor : Auditor)
    (h : auditor.lat = some 0 ∨ auditor.lng = some 0) :
    updateOneTrail st auditor = st := by
  have hg : (jsTruthyInt auditor.lat && jsTruthyInt auditor.lng) = false := by
    rcases h with h | h <;> simp [h, jsTruthyInt]
  simp [updateOneTrail, hg]

/-- C10: in any updateRouteTrails call, an entity whose latitude or
longitude equals 0 — both coordinates being present — is skipped
entirely: removing it from the snapshot yields the same trail state (no
point appended, no render), because `if (auditor.lat && auditor.lng)`
tests truthiness and the number 0 is falsy. -/
theorem updateRouteTrails_skips_zero_coordinate (st : TrailState)
    (others tail : List Auditor) (auditor : Auditor) (la lg : Int)
    (hla : auditor.lat = some la) (hlg : auditor.lng = some lg)
    (h0 : la = 0 ∨ lg = 0) :
    updateRouteTrails st (others ++ auditor :: tail) =
      updateRouteTrails st (others ++ tail) := by
  have hz : auditor.lat = some 0 ∨ auditor.lng = some 0 := by
    rcases h0 with h | h
    · exact Or.inl (h ▸ hla)
    · exact Or.inr (h ▸ hlg)
  simp only [updateRouteTrails, List.foldl_append, List.foldl_cons]
  rw [updateOneTrail_zero_coord _ _ hz]

/-- C10, witness: auditor a2 with lat = 0 and lng = 77 is skipped. -/
theorem updateRouteTrails_skips_zero_coordinate_witness :
    auditor0.lat = some 0 ∧ auditor0.lng = some 77 ∧
    updateRouteTrails trailSt1 ([] ++ auditor0 :: []) =
      updateRouteTrails trailSt1 ([] ++ []) :=
  ⟨rfl, rfl,
   updateRouteTrails_skips_zero_coordinate trailSt1 [] [] auditor0 0 77 rfl rfl
     (Or.inl rfl)⟩

end EnhancedTracking
